import Mathlib

/-!
Verification development for the iostat utility (src/main.rs).

The Rust source is shallowly embedded: `u64` counters become `Nat` (all
values observed lie in `[0, 2^64)`, where `u64::saturating_sub` coincides
with truncated `Nat` subtraction and no other arithmetic in the embedded
code can overflow on the inputs considered); `f64` display arithmetic is
embedded over `ℚ`, exact where the floating computation rounds; the
`HashMap<String, DiskStats>` becomes an association list whose lookup
takes the most recently inserted binding, matching `HashMap::insert`
overwrite semantics.
-/

/-- Model of struct CpuStats (src/main.rs lines 44-54): 8 cumulative
since-boot CPU tick counters. -/
structure CpuStats where
  user : Nat
  nice : Nat
  system : Nat
  idle : Nat
  iowait : Nat
  irq : Nat
  softirq : Nat
  steal : Nat
deriving DecidableEq, Repr

/-- Model of CpuStats::default() (derived Default: all fields 0). -/
def CpuStats.default : CpuStats := ⟨0, 0, 0, 0, 0, 0, 0, 0⟩

/-- Model of CpuStats::total (line 57): sum of all 8 fields. -/
def CpuStats.total (s : CpuStats) : Nat :=
  s.user + s.nice + s.system + s.idle + s.iowait + s.irq + s.softirq + s.steal

/-- Model of CpuStats::delta (lines 61-72): per-field saturating
subtraction, `self.saturating_sub(prev)`; `Nat` subtraction is exactly
`u64::saturating_sub` on in-range values. -/
def CpuStats.delta (s prev : CpuStats) : CpuStats :=
  { user := s.user - prev.user
    nice := s.nice - prev.nice
    system := s.system - prev.system
    idle := s.idle - prev.idle
    iowait := s.iowait - prev.iowait
    irq := s.irq - prev.irq
    softirq := s.softirq - prev.softirq
    steal := s.steal - prev.steal }

/-- Model of CpuStats::percentages (lines 74-87): the six displayed CPU
percentages (user, system, iowait, steal, idle, irq), all zero when the
total is zero; `f64` arithmetic embedded over `ℚ`. -/
def CpuStats.percentages (s : CpuStats) : ℚ × ℚ × ℚ × ℚ × ℚ × ℚ :=
  let total : ℚ := (s.total : ℚ)
  if total = 0 then (0, 0, 0, 0, 0, 0)
  else
    ( ((s.user + s.nice : Nat) : ℚ) / total * 100
    , (s.system : ℚ) / total * 100
    , (s.iowait : ℚ) / total * 100
    , (s.steal : ℚ) / total * 100
    , (s.idle : ℚ) / total * 100
    , ((s.irq + s.softirq : Nat) : ℚ) / total * 100 )

/-- Model of struct DiskStats (lines 90-103): 10 cumulative counters and
the single instantaneous gauge io_in_progress. -/
structure DiskStats where
  reads_completed : Nat
  reads_merged : Nat
  sectors_read : Nat
  read_time_ms : Nat
  writes_completed : Nat
  writes_merged : Nat
  sectors_written : Nat
  write_time_ms : Nat
  io_in_progress : Nat
  io_time_ms : Nat
  weighted_io_time_ms : Nat
deriving DecidableEq, Repr

/-- Model of DiskStats::default() (derived Default: all fields 0). -/
def DiskStats.default : DiskStats := ⟨0, 0, 0, 0, 0, 0, 0, 0, 0, 0, 0⟩

/-- Model of DiskStats::delta (lines 106-120): saturating subtraction on
the 10 cumulative fields, pass-through of the current value for the
io_in_progress gauge. -/
def DiskStats.delta (s prev : DiskStats) : DiskStats :=
  { reads_completed := s.reads_completed - prev.reads_completed
    reads_merged := s.reads_merged - prev.reads_merged
    sectors_read := s.sectors_read - prev.sectors_read
    read_time_ms := s.read_time_ms - prev.read_time_ms
    writes_completed := s.writes_completed - prev.writes_completed
    writes_merged := s.writes_merged - prev.writes_merged
    sectors_written := s.sectors_written - prev.sectors_written
    write_time_ms := s.write_time_ms - prev.write_time_ms
    io_in_progress := s.io_in_progress
    io_time_ms := s.io_time_ms - prev.io_time_ms
    weighted_io_time_ms := s.weighted_io_time_ms - prev.weighted_io_time_ms }

/-! String machinery for the device classifier. Rust `str::starts_with`
and substring `str::contains` are modelled over character lists. -/

/-- Boolean test that the first list is an initial segment of the second
(Rust `str::starts_with`). -/
def listStarts : List Char → List Char → Bool
  | [], _ => true
  | _ :: _, [] => false
  | p :: ps, c :: cs => p == c && listStarts ps cs

/-- Boolean test that the first list occurs contiguously inside the
second (Rust substring `str::contains`). -/
def listSub (p : List Char) : List Char → Bool
  | [] => p.isEmpty
  | c :: cs => listStarts p (c :: cs) || listSub p cs

/-- Model of Rust `str::split(sep)` over character lists: consecutive
separators and separators at either end yield empty segments, and the
result is always non-empty. -/
def splitChar (sep : Char) : List Char → List (List Char)
  | [] => [[]]
  | c :: cs =>
    let rest := splitChar sep cs
    if c == sep then [] :: rest
    else
      match rest with
      | [] => [[c]]
      | r :: rs => (c :: r) :: rs

/-- The string literal "nvme" used by is_partition. -/
def nvmeStr : String := "nvme"

/-- The device-family literal "sd". -/
def sdStr : String := "sd"

/-- The device-family literal "hd". -/
def hdStr : String := "hd"

/-- The device-family literal "vd". -/
def vdStr : String := "vd"

/-- The loop-device literal "loop". -/
def loopStr : String := "loop"

/-- Model of fn is_partition (lines 182-202). The NVMe branch only
returns from inside its nested ifs; a non-return there falls through to
the later branches, modelled with an Option. `Char.isDigit` is Rust
`char::is_ascii_digit`. -/
def is_partition (name : String) : Bool :=
  let cs := name.toList
  let nvmeBranch : Option Bool :=
    if listSub nvmeStr.toList cs && cs.contains 'p' then
      let parts := splitChar 'p' cs
      if 1 < parts.length then
        match parts.getLast? with
        | some last => some (last.all (fun c => c.isDigit) && !(last.isEmpty))
        | none => none
      else none
    else none
  match nvmeBranch with
  | some b => b
  | none =>
    if listStarts sdStr.toList cs || listStarts hdStr.toList cs || listStarts vdStr.toList cs then
      let rest := cs.drop 3
      rest.all (fun c => c.isDigit) && !(rest.isEmpty)
    else if listStarts loopStr.toList cs && cs.contains 'p' then
      true
    else
      false

/-! Snapshot acquisition: fn read_disk_stats (lines 145-180). A line of
/proc/diskstats is modelled, after `split_whitespace`, as a `List String`
of its tokens; the whole file as a `List (List String)`. -/

/-- Model of Rust `str::parse::<u64>()`: an optional leading '+', then a
non-empty run of ASCII digits, rejecting values outside `u64` range. -/
def parseU64 (s : String) : Option Nat :=
  let cs := s.toList
  let digits := if cs.head? == some '+' then cs.tail else cs
  if digits.isEmpty then none
  else if digits.all (fun c => c.isDigit) then
    let v := digits.foldl (fun a c => a * 10 + (c.toNat - 48)) 0
    if v < 2 ^ 64 then some v else none
  else none

/-- Model of `parts[i].parse().unwrap_or(0)` (lines 163-173): a token
that fails to parse contributes 0. The out-of-bounds arm is unreachable
under the caller's length guard. -/
def parseField (parts : List String) (i : Nat) : Nat :=
  match parts.get? i with
  | some s => (parseU64 s).getD 0
  | none => 0

/-- The DiskStats record built from one diskstats line's tokens
(lines 162-174): fields are tokens 3 through 13. -/
def parseDiskLine (parts : List String) : DiskStats :=
  { reads_completed := parseField parts 3
    reads_merged := parseField parts 4
    sectors_read := parseField parts 5
    read_time_ms := parseField parts 6
    writes_completed := parseField parts 7
    writes_merged := parseField parts 8
    sectors_written := parseField parts 9
    write_time_ms := parseField parts 10
    io_in_progress := parseField parts 11
    io_time_ms := parseField parts 12
    weighted_io_time_ms := parseField parts 13 }

/-- Model of fn read_disk_stats (lines 145-180): keep lines with at
least 14 tokens whose device name (token 2) is not a partition; the map
is an association list where the most recent insertion shadows earlier
ones under `List.lookup`, as `HashMap::insert` overwrites. -/
def read_disk_stats (lines : List (List String)) : List (String × DiskStats) :=
  lines.foldl
    (fun stats parts =>
      if 14 ≤ parts.length then
        match parts.get? 2 with
        | some name =>
          if is_partition name then stats else (name, parseDiskLine parts) :: stats
        | none => stats
      else stats)
    []

/-! Metric derivation: fn print_device_stats (lines 233-279), the value
computations only (formatting is out of scope), over `ℚ`. -/

/-- Model of reads_per_sec (line 240). -/
def reads_per_sec (d : DiskStats) (interval_secs : ℚ) : ℚ :=
  (d.reads_completed : ℚ) / interval_secs

/-- Model of writes_per_sec (line 241). -/
def writes_per_sec (d : DiskStats) (interval_secs : ℚ) : ℚ :=
  (d.writes_completed : ℚ) / interval_secs

/-- Model of tps (line 242). -/
def tps (d : DiskStats) (interval_secs : ℚ) : ℚ :=
  reads_per_sec d interval_secs + writes_per_sec d interval_secs

/-- Model of kb_read_per_sec (line 245): sectors are 512 bytes. -/
def kb_read_per_sec (d : DiskStats) (interval_secs unit_divisor : ℚ) : ℚ :=
  (d.sectors_read : ℚ) * 512 / 1024 / interval_secs / unit_divisor

/-- Model of kb_written_per_sec (line 246). -/
def kb_written_per_sec (d : DiskStats) (interval_secs unit_divisor : ℚ) : ℚ :=
  (d.sectors_written : ℚ) * 512 / 1024 / interval_secs / unit_divisor

/-- The unclamped utilization ratio of line 265:
`io_time_ms / (interval * 1000) * 100`. -/
def raw_util (d : DiskStats) (interval_secs : ℚ) : ℚ :=
  (d.io_time_ms : ℚ) / (interval_secs * 1000) * 100

/-- Model of util (lines 265-266): the raw ratio clamped by
`util.min(100.0)`. -/
def util_percent (d : DiskStats) (interval_secs : ℚ) : ℚ :=
  min (raw_util d interval_secs) 100

/-- The triple of values a basic-mode device row displays
(lines 273-278): tps, kB read/s, kB written/s. -/
def deviceRowBasic (d : DiskStats) (interval_secs unit_divisor : ℚ) : ℚ × ℚ × ℚ :=
  (tps d interval_secs, kb_read_per_sec d interval_secs unit_divisor,
    kb_written_per_sec d interval_secs unit_divisor)

/-- The basic-mode row main emits for a device in the first
(since-boot) report (line 311): main calls
`print_device_stats(name, &DiskStats::default(), 1.0, extended, unit_divisor)`,
passing the all-zero default delta and ignoring the device's actual
first-snapshot counters entirely. -/
def firstReportDeviceRowBasic (_snapshot : DiskStats) (unit_divisor : ℚ) : ℚ × ℚ × ℚ :=
  deviceRowBasic DiskStats.default 1 unit_divisor

/-- The six CPU percentages main emits in the first (since-boot) report
(line 301): the raw first snapshot is printed as its own delta. -/
def firstReportCpu (snapshot : CpuStats) : ℚ × ℚ × ℚ × ℚ × ℚ × ℚ :=
  snapshot.percentages

/-! Report cycle count dynamics (lines 291, 316-319, 355-358). -/

/-- The value u32::MAX. -/
def u32Max : Nat := 4294967295

/-- Model of line 291: `if args.count == 0 { u32::MAX } else { args.count }`;
the sentinel 0 ("unbounded") becomes u32::MAX. -/
def initialCount (argsCount : Nat) : Nat :=
  if argsCount = 0 then u32Max else argsCount

/-- Model of `count.saturating_sub(1)` (lines 316, 355), performed once
after each emitted report; the loop breaks when the count reaches 0. -/
def stepCount (c : Nat) : Nat := c - 1

/-! Helper lemmas. -/

/-- Truncated Nat subtraction, cast to the integers, is the clamped
difference: this is the arithmetic content of `u64::saturating_sub`. -/
theorem natCast_sub_eq_max (a b : Nat) :
    ((a - b : Nat) : Int) = max ((a : Int) - (b : Int)) 0 := by
  rw [max_def]
  split <;> omega

/-- Iterating the per-report decrement k times subtracts k, saturating
at zero. -/
theorem stepCount_iterate (k c : Nat) : stepCount^[k] c = c - k := by
  induction k generalizing c with
  | zero => simp
  | succ n ih =>
    rw [Function.iterate_succ_apply, ih]
    unfold stepCount
    omega

/-- C1: for every pair of DiskStats (prev, curr), the delta's
io_in_progress gauge equals curr's gauge verbatim, for every value of
prev's gauge; the previous value is never subtracted. -/
theorem C1_gauge_pass_through (curr prev : DiskStats) :
    (curr.delta prev).io_in_progress = curr.io_in_progress := rfl

/-- C2: every cumulative field of CpuStats::delta (all 8) and of
DiskStats::delta (the 10 non-gauge fields) is max(curr - prev, 0) over
the integers; in particular it is 0, never negative or wrapped, when
curr < prev. -/
theorem C2_saturating_sub_is_clamped (c p : CpuStats) (dc dp : DiskStats) :
    (((c.delta p).user : Int) = max ((c.user : Int) - (p.user : Int)) 0) ∧
    (((c.delta p).nice : Int) = max ((c.nice : Int) - (p.nice : Int)) 0) ∧
    (((c.delta p).system : Int) = max ((c.system : Int) - (p.system : Int)) 0) ∧
    (((c.delta p).idle : Int) = max ((c.idle : Int) - (p.idle : Int)) 0) ∧
    (((c.delta p).iowait : Int) = max ((c.iowait : Int) - (p.iowait : Int)) 0) ∧
    (((c.delta p).irq : Int) = max ((c.irq : Int) - (p.irq : Int)) 0) ∧
    (((c.delta p).softirq : Int) = max ((c.softirq : Int) - (p.softirq : Int)) 0) ∧
    (((c.delta p).steal : Int) = max ((c.steal : Int) - (p.steal : Int)) 0) ∧
    (((dc.delta dp).reads_completed : Int) = max ((dc.reads_completed : Int) - (dp.reads_completed : Int)) 0) ∧
    (((dc.delta dp).reads_merged : Int) = max ((dc.reads_merged : Int) - (dp.reads_merged : Int)) 0) ∧
    (((dc.delta dp).sectors_read : Int) = max ((dc.sectors_read : Int) - (dp.sectors_read : Int)) 0) ∧
    (((dc.delta dp).read_time_ms : Int) = max ((dc.read_time_ms : Int) - (dp.read_time_ms : Int)) 0) ∧
    (((dc.delta dp).writes_completed : Int) = max ((dc.writes_completed : Int) - (dp.writes_completed : Int)) 0) ∧
    (((dc.delta dp).writes_merged : Int) = max ((dc.writes_merged : Int) - (dp.writes_merged : Int)) 0) ∧
    (((dc.delta dp).sectors_written : Int) = max ((dc.sectors_written : Int) - (dp.sectors_written : Int)) 0) ∧
    (((dc.delta dp).write_time_ms : Int) = max ((dc.write_time_ms : Int) - (dp.write_time_ms : Int)) 0) ∧
    (((dc.delta dp).io_time_ms : Int) = max ((dc.io_time_ms : Int) - (dp.io_time_ms : Int)) 0) ∧
    (((dc.delta dp).weighted_io_time_ms : Int) = max ((dc.weighted_io_time_ms : Int) - (dp.weighted_io_time_ms : Int)) 0) := by
  refine ⟨?_, ?_, ?_, ?_, ?_, ?_, ?_, ?_, ?_, ?_, ?_, ?_, ?_, ?_, ?_, ?_, ?_, ?_⟩ <;>
    exact natCast_sub_eq_max _ _

/-- C10: the all-zero snapshot is a right identity of delta, for both
CpuStats and DiskStats: cumulative fields subtract 0 and the gauge
passes the current value through. -/
theorem C10_delta_default_right_identity (s : CpuStats) (d : DiskStats) :
    s.delta CpuStats.default = s ∧ d.delta DiskStats.default = d :=
  ⟨rfl, rfl⟩

/-- The concrete first-snapshot device counters used to exhibit the
first-report behavior: 10 reads completed and 2048 sectors read since
boot, everything else 0. -/
def sampleDisk : DiskStats := ⟨10, 0, 2048, 0, 0, 0, 0, 0, 0, 0, 0⟩

/-- C3: evaluation of is_partition on the six spec test inputs. The code
classifies "loop0" as a partition (true): "loop0" starts with "loop" and
contains the character 'p' (inside "loop" itself), so the loop branch of
lines 198-200 fires, diverging from the claimed whole-disk (false); the
other five inputs match the claim. -/
theorem C3_classifier_eval :
    is_partition ("sda") = false ∧
    is_partition ("sda1") = true ∧
    is_partition ("nvme0n1") = false ∧
    is_partition ("nvme0n1p1") = true ∧
    is_partition ("loop0") = true ∧
    is_partition ("loop0p1") = true := by decide

/-- C4: for a first snapshot whose device has nonzero since-boot
counters (10 reads, 2048 sectors read), the basic-mode row main emits in
the first report is (0, 0, 0) — main passes DiskStats::default() to
print_device_stats at line 311 — whereas the delta of the snapshot
against the all-zero baseline at elapsed 1.0, which the claim says is
emitted, displays (10, 1024, 0). -/
theorem C4_first_report_emits_zero_device_rows :
    firstReportDeviceRowBasic sampleDisk 1 = (0, 0, 0) ∧
    deviceRowBasic (sampleDisk.delta DiskStats.default) 1 1 = (10, 1024, 0) := by
  constructor <;>
    norm_num [firstReportDeviceRowBasic, deviceRowBasic, tps, reads_per_sec,
      writes_per_sec, kb_read_per_sec, kb_written_per_sec, DiskStats.delta,
      DiskStats.default, sampleDisk]

/-- C6: for every device delta and elapsed interval > 0, the displayed
utilization is clamped to at most 100, and any input whose raw ratio
exceeds 100 displays exactly 100. -/
theorem C6_util_clamped (d : DiskStats) (e : ℚ) (he : 0 < e) :
    util_percent d e ≤ 100 ∧ (100 < raw_util d e → util_percent d e = 100) := by
  refine ⟨min_le_right _ _, fun h => ?_⟩
  rw [util_percent, min_eq_right h.le]

/-- Witness for C6 at the spec's concrete input: io_time_ms = 2000 over
elapsed = 1 second has raw ratio 200 > 100 and displays exactly 100. -/
theorem C6_util_clamped_witness :
    (0 : ℚ) < 1 ∧ 100 < raw_util ⟨0, 0, 0, 0, 0, 0, 0, 0, 0, 2000, 0⟩ 1 ∧
    util_percent ⟨0, 0, 0, 0, 0, 0, 0, 0, 0, 2000, 0⟩ 1 = 100 := by
  have hr : (100 : ℚ) < raw_util ⟨0, 0, 0, 0, 0, 0, 0, 0, 0, 2000, 0⟩ 1 := by
    norm_num [raw_util]
  exact ⟨by norm_num, hr,
    (C6_util_clamped ⟨0, 0, 0, 0, 0, 0, 0, 0, 0, 2000, 0⟩ 1 (by norm_num)).2 hr⟩

/-- C9: with the sentinel count 0 ("unbounded"), main sets the remaining
count to u32::MAX (line 291) and decrements once per report (lines 316,
355), so after exactly 4294967295 reports the count is 0 and the cycle
terminates (lines 356-358) — it still runs after 4294967294 reports, but
it does not run forever as claimed. -/
theorem C9_unbounded_sentinel_terminates :
    initialCount 0 = u32Max ∧
    stepCount^[u32Max - 1] (initialCount 0) ≠ 0 ∧
    stepCount^[u32Max] (initialCount 0) = 0 := by
  refine ⟨rfl, ?_, ?_⟩ <;> rw [stepCount_iterate] <;> norm_num [initialCount, u32Max]

/-- C5: the CPU percentage derivation never divides by zero — all six
outputs are exactly 0 when the delta total is 0 — and for positive total
the six outputs are the claimed fractions of the total times 100, whose
sum is exactly 100 in the rational model (approximately 100 under f64
rounding). -/
theorem C5_cpu_percentages_zero_guard_and_sum (s : CpuStats) :
    (s.total = 0 → s.percentages = (0, 0, 0, 0, 0, 0)) ∧
    (0 < s.total →
      s.percentages =
        (((s.user + s.nice : Nat) : ℚ) / (s.total : ℚ) * 100,
          (s.system : ℚ) / (s.total : ℚ) * 100,
          (s.iowait : ℚ) / (s.total : ℚ) * 100,
          (s.steal : ℚ) / (s.total : ℚ) * 100,
          (s.idle : ℚ) / (s.total : ℚ) * 100,
          ((s.irq + s.softirq : Nat) : ℚ) / (s.total : ℚ) * 100) ∧
      s.percentages.1 + s.percentages.2.1 + s.percentages.2.2.1 +
        s.percentages.2.2.2.1 + s.percentages.2.2.2.2.1 + s.percentages.2.2.2.2.2 = 100) := by
  constructor
  · intro h
    simp [CpuStats.percentages, h]
  · intro h
    have ht : ((s.total : ℚ)) ≠ 0 := Nat.cast_ne_zero.mpr h.ne'
    constructor
    · simp only [CpuStats.percentages, if_neg ht]
    · simp only [CpuStats.percentages, if_neg ht]
      field_simp
      unfold CpuStats.total
      push_cast
      ring

/-- Witness for C5: the all-zero delta displays six zeros, and the delta
⟨50, 0, 20, 100, 5, 0, 0, 0⟩ (total 175) displays percentages summing to
exactly 100. -/
theorem C5_cpu_percentages_zero_guard_and_sum_witness :
    CpuStats.default.percentages = (0, 0, 0, 0, 0, 0) ∧
    ((⟨50, 0, 20, 100, 5, 0, 0, 0⟩ : CpuStats).percentages.1 +
      (⟨50, 0, 20, 100, 5, 0, 0, 0⟩ : CpuStats).percentages.2.1 +
      (⟨50, 0, 20, 100, 5, 0, 0, 0⟩ : CpuStats).percentages.2.2.1 +
      (⟨50, 0, 20, 100, 5, 0, 0, 0⟩ : CpuStats).percentages.2.2.2.1 +
      (⟨50, 0, 20, 100, 5, 0, 0, 0⟩ : CpuStats).percentages.2.2.2.2.1 +
      (⟨50, 0, 20, 100, 5, 0, 0, 0⟩ : CpuStats).percentages.2.2.2.2.2 = 100) :=
  ⟨(C5_cpu_percentages_zero_guard_and_sum CpuStats.default).1 rfl,
    ((C5_cpu_percentages_zero_guard_and_sum ⟨50, 0, 20, 100, 5, 0, 0, 0⟩).2 (by decide)).2⟩

/-- A /proc/diskstats line for device sda with only 13 whitespace
tokens: one numeric field short of the 14 the reader requires. -/
def shortLine : List String :=
  ["8", "0", "sda", "10", "0", "2048", "5", "7", "0", "4096", "6", "0", "50"]

/-- A /proc/diskstats line for device sda with 14 whitespace tokens all
of whose 11 numeric fields are malformed (unparseable as u64). -/
def badLine : List String :=
  ["8", "0", "sda", "x", "y", "z", "q", "w", "e", "r", "t", "u", "i", "o"]

/-- C7 counterexample: a short counter record (13 tokens) for device sda
is discarded whole by the `parts.len() >= 14` guard of line 151 — the
device is absent from the resulting map, not recovered with zeroed
fields as claimed. -/
theorem C7_short_line_discarded :
    shortLine.length = 13 ∧ shortLine.get? 2 = some ("sda") ∧
    is_partition ("sda") = false ∧
    (read_disk_stats [shortLine]).lookup ("sda") = none := by decide

/-- C7 amended: a diskstats line with fewer than 14 tokens is discarded
entirely, while a line with at least 14 tokens for a non-partition
device is kept even when every numeric field is malformed, those fields
defaulting to zero. -/
theorem C7_recovery_amended :
    (∀ parts : List String, parts.length < 14 → read_disk_stats [parts] = []) ∧
    (∀ (parts : List String) (name : String), 14 ≤ parts.length →
      parts.get? 2 = some name → is_partition name = false →
      (∀ t ∈ parts.drop 3, parseU64 t = none) →
      (read_disk_stats [parts]).lookup name = some DiskStats.default) := by
  constructor
  · intro parts h
    simp only [read_disk_stats, List.foldl_cons, List.foldl_nil]
    rw [if_neg (by omega)]
  · intro parts name hlen hname hpart hbad
    have hf : ∀ i, 3 ≤ i → parseField parts i = 0 := by
      intro i hi
      unfold parseField
      cases hget : parts.get? i with
      | none => rfl
      | some t =>
        have hdropped : (parts.drop 3).get? (i - 3) = some t := by
          rw [List.get?_drop]
          rwa [Nat.add_sub_cancel' hi]
        have ht : t ∈ parts.drop 3 := List.get?_mem hdropped
        show (parseU64 t).getD 0 = 0
        rw [hbad t ht]
        rfl
    have hline : parseDiskLine parts = DiskStats.default := by
      unfold parseDiskLine DiskStats.default
      rw [hf 3 (by omega), hf 4 (by omega), hf 5 (by omega), hf 6 (by omega),
        hf 7 (by omega), hf 8 (by omega), hf 9 (by omega), hf 10 (by omega),
        hf 11 (by omega), hf 12 (by omega), hf 13 (by omega)]
    simp only [read_disk_stats, List.foldl_cons, List.foldl_nil]
    rw [if_pos hlen, hname]
    simp only [hpart]
    simp [List.lookup, hline]

/-- Witness for the amended C7 at concrete lines: the 13-token sda line
yields an empty map, while the 14-token all-malformed sda line yields
sda bound to the all-zero record. -/
theorem C7_recovery_amended_witness :
    read_disk_stats [shortLine] = [] ∧
    (read_disk_stats [badLine]).lookup ("sda") = some DiskStats.default :=
  ⟨C7_recovery_amended.1 shortLine (by decide),
    C7_recovery_amended.2 badLine ("sda") (by decide) (by decide) (by decide) (by decide)⟩

/-- The previous CPU counters of the spec's end-to-end example. -/
def prevCpuSample : CpuStats := ⟨100, 0, 50, 800, 10, 0, 0, 0⟩

/-- The current CPU counters of the spec's end-to-end example. -/
def currCpuSample : CpuStats := ⟨150, 0, 70, 900, 15, 0, 0, 0⟩

/-- C8 counterexample: on the spec's end-to-end example the displayed
system percentage is 80/7 ≈ 11.43, which is below 12 and therefore not
approximately 20.0 as the claim states (the system delta is 20 ticks,
and 20/175 × 100 = 11.43). -/
theorem C8_system_percentage_not_twenty :
    (currCpuSample.delta prevCpuSample).percentages.2.1 = 80 / 7 ∧
    (80 / 7 : ℚ) < 12 := by
  constructor
  · norm_num [CpuStats.percentages, CpuStats.delta, CpuStats.total, prevCpuSample, currCpuSample]
  · norm_num

/-- C8 amended: on the spec's end-to-end example the delta total is 175
and the six percentages are exactly (200/7, 80/7, 20/7, 0, 400/7, 0),
i.e. %user ≈ 28.57, %system ≈ 11.43, %iowait ≈ 2.86, %steal = 0,
%idle ≈ 57.14, %irq = 0. -/
theorem C8_concrete_percentages :
    (currCpuSample.delta prevCpuSample).total = 175 ∧
    (currCpuSample.delta prevCpuSample).percentages =
      (200 / 7, 80 / 7, 20 / 7, 0, 400 / 7, 0) := by
  constructor
  · decide
  · norm_num [CpuStats.percentages, CpuStats.delta, CpuStats.total, prevCpuSample, currCpuSample]
